import Mathlib

/-!
Verification of the `ai-doctor` chat backend against its natural-language
specification.  The Python sources are shallowly embedded as executable Lean
definitions; each claim of the specification is settled by a theorem about
those definitions.

Conventions used throughout the embedding:
* Python strings are Lean `String`s; the substring test `needle in hay` is
  `strContains hay needle` (contiguous infix of the character list).
* Python `str.lower()` is `pyLower`, `str.strip()` is `pyTrim`, and
  `text.split('.')` is `pySplitDot` — all written by structural recursion on
  the character list so that concrete instances reduce in the kernel.
* Python dicts with string keys and string values are association lists
  `List (String × String)`; `d.get(k, default)` is `dictGet d k default`.
* Fallible Python code (statements that can raise) is embedded in `Except`;
  a `try/except` block is a `match` on the `Except` value.
* Times are integer seconds (`Int`); gesture timings, whose source values
  have one decimal digit, are naturals counted in tenths of a second.
-/

namespace AIDoctor

/-- Python `s.lower()`.  (Implemented over the character list so that it
reduces in the kernel; `String.toLower` itself is a well-founded recursion.) -/
def pyLower (s : String) : String :=
  ⟨s.data.map Char.toLower⟩

/-- Python `s.strip()`: drop leading and trailing whitespace. -/
def pyTrim (s : String) : String :=
  ⟨(((s.data.dropWhile Char.isWhitespace).reverse).dropWhile Char.isWhitespace).reverse⟩

/-- Split a character list at every occurrence of `sep`, keeping empty
groups — the semantics of Python `s.split(sep)` for a one-character `sep`. -/
def splitChar (sep : Char) : List Char → List (List Char)
  | [] => [[]]
  | c :: rest =>
    if c == sep then [] :: splitChar sep rest
    else
      match splitChar sep rest with
      | [] => [[c]]
      | g :: gs => (c :: g) :: gs

/-- Python `s.split('.')`. -/
def pySplitDot (s : String) : List String :=
  (splitChar '.' s.data).map (fun l => ⟨l⟩)

/-- Contiguous-sublist test on character lists, by structural recursion. -/
def infixOfList (needle : List Char) : List Char → Bool
  | [] => needle.isEmpty
  | c :: rest => needle.isPrefixOf (c :: rest) || infixOfList needle rest

/-- Python `needle in hay` for strings: contiguous substring containment. -/
def strContains (hay needle : String) : Bool :=
  infixOfList needle.toList hay.toList

/-- Python `any(word in hay for word in words)`. -/
def anyKeyword (hay : String) (words : List String) : Bool :=
  words.any (fun w => strContains hay w)

/-- Concatenation of a list of strings (in order). -/
def concatList (l : List String) : String :=
  l.foldr (fun a r => a ++ r) ""

@[simp] theorem concatList_nil : concatList [] = "" := rfl

@[simp] theorem concatList_cons (a : String) (l : List String) :
    concatList (a :: l) = a ++ concatList l := rfl

theorem concatList_append (l₁ l₂ : List String) :
    concatList (l₁ ++ l₂) = concatList l₁ ++ concatList l₂ := by
  induction l₁ with
  | nil => simp
  | cons a l ih => simp [ih, String.append_assoc]

/-- Python `d.get(k, default)` on a string-keyed dict. -/
def dictGet (d : List (String × String)) (k default : String) : String :=
  match d.find? (fun p => p.1 == k) with
  | some p => p.2
  | none => default

/-- Python `d.get(k)` (returns `None` when the key is absent). -/
def dictGet? (d : List (String × String)) (k : String) : Option String :=
  (d.find? (fun p => p.1 == k)).map (fun p => p.2)

/-! ## Gesture/Animation Mapper — `src/animation/services.py`

`AnimationService.analyze_text_for_gestures` (lines 20–55).  The embedding
covers the string-input case (`isinstance(text, str)`); the dict-extraction
branch is not exercised by any claim.  All timings and durations in the
source are decimal constants with one fractional digit, so they are embedded
exactly as naturals counted in tenths of a second (`0.5` ↦ `5`, `3.0` ↦ `30`,
`2.0` ↦ `20`, …). -/

/-- One entry of the gesture list: `{'name': …, 'timing': …, 'duration': …}`,
with the two time fields in tenths of a second. -/
structure GestureEntry where
  name : String
  timing : Nat
  duration : Nat
deriving DecidableEq, Repr

/-- `AnimationService.analyze_text_for_gestures` on a string input. -/
def analyze_text_for_gestures (text : String) : List GestureEntry :=
  let text_lower := pyLower text
  let immediate :=
    (if anyKeyword text_lower ["hello", "hi", "welcome"] then
      [⟨"wave", 0, 20⟩] else [])
    ++ (if anyKeyword text_lower ["yes", "correct", "exactly"] then
      [⟨"nod", 5, 15⟩] else [])
  let sentences := pySplitDot text
  let contextual := (sentences.enum).flatMap (fun p =>
    let timing : Nat := p.1 * 30
    let sentence := p.2
    (if strContains (pyLower sentence) "explain" || strContains (pyLower sentence) "because" then
      [⟨"explain", timing, 25⟩] else [])
    ++ (if anyKeyword (pyLower sentence) ["sorry", "understand your concern"] then
      [⟨"empathy", timing, 20⟩] else [])
    ++ (if anyKeyword (pyLower sentence) ["worried", "serious", "urgent"] then
      [⟨"concern", timing, 20⟩] else []))
  immediate ++ contextual

/-! ## Keyword fallback of the Completion Gateway — `src/chat/openai_service.py`

`OpenAIService._get_fallback_response` (lines 377–410). -/

/-- The dict returned by the Completion Gateway: `{response, gesture, mood,
urgency}` (the `recommendations`/`disclaimer`/`fallback` metadata fields,
which no claim mentions, are omitted). -/
structure MedicalResponse where
  response : String
  gesture : String
  mood : String
  urgency : String
deriving DecidableEq, Repr

/-- `OpenAIService._get_fallback_response`: keyword-matched canned response
used whenever the provider is unavailable or any error was caught.  The
branches are tested in source order. -/
def get_fallback_response (user_message : String) : MedicalResponse :=
  let user_lower := pyLower user_message
  if anyKeyword user_lower ["hello", "hi", "hey"] then
    { response := "Hello! I'm Dr. AI. How can I help you with your health concerns today?"
      gesture := "welcome", mood := "professional", urgency := "low" }
  else if anyKeyword user_lower ["pain", "hurt", "ache"] then
    { response := "I understand you're experiencing pain. Can you describe the location and severity? For immediate severe pain, please seek medical attention."
      gesture := "examine", mood := "concerned", urgency := "low" }
  else if anyKeyword user_lower ["fever", "temperature", "hot"] then
    { response := "Fever can indicate various conditions. Have you taken your temperature? Please monitor your symptoms and consult a healthcare provider if it persists."
      gesture := "checkPulse", mood := "professional", urgency := "low" }
  else if anyKeyword user_lower ["headache", "head"] then
    { response := "For headaches, try rest, hydration, and over-the-counter pain relief if appropriate. Seek medical care for severe or persistent headaches."
      gesture := "reassure", mood := "reassuring", urgency := "low" }
  else
    { response := "I'm here to help with your health questions. Please describe your symptoms or concerns, and I'll provide general medical information. Always consult healthcare professionals for specific medical advice."
      gesture := "listen", mood := "professional", urgency := "low" }

/-! ## Completion Gateway — `src/chat/openai_service.py`

`OpenAIService` (lines 20–410) with its `RateLimiter` (lines 413–431).
External collaborators are parameters of the embedding:
* `jsonParse` — `json.loads` applied to the provider's completion content,
  restricted to flat string-valued JSON objects (`None` = parse failure);
* `countTokens` — the opaque `tiktoken` encoder length;
* `provider` — the outcome of `_make_chat_completion` (`.ok content` when the
  HTTP call returns, `.error e` when it raises). -/

/-- The `valid_gestures` list of `OpenAIService._validate_gesture`. -/
def valid_gestures : List String :=
  ["welcome", "examine", "prescribe", "reassure", "checkPulse",
   "listen", "think", "nod", "wave", "point", "explain", "empathy"]

/-- `OpenAIService._validate_gesture`. -/
def validate_gesture (gesture : String) : String :=
  if valid_gestures.contains gesture then gesture else "professional"

/-- The `valid_moods` list of `OpenAIService._validate_mood`. -/
def valid_moods : List String :=
  ["professional", "concerned", "reassuring", "focused"]

/-- `OpenAIService._validate_mood`. -/
def validate_mood (mood : String) : String :=
  if valid_moods.contains mood then mood else "professional"

/-- `OpenAIService._parse_medical_response`.  `jsonParsed` is the result of
`json.loads(response_content)` (`none` when it raises `JSONDecodeError`). -/
def parse_medical_response (jsonParsed : Option (List (String × String)))
    (response_content : String) : MedicalResponse :=
  match jsonParsed with
  | some parsed =>
    { response := dictGet parsed "response" response_content
      gesture := validate_gesture (dictGet parsed "gesture" "professional")
      mood := validate_mood (dictGet parsed "mood" "professional")
      urgency := dictGet parsed "urgency" "low" }
  | none =>
    { response := response_content, gesture := "professional"
      mood := "professional", urgency := "low" }

/-- One chat message `{'role': …, 'content': …}`. -/
structure Msg where
  role : String
  content : String
deriving DecidableEq, Repr

/-- Python `l[-n:]` for `n ≥ 1`: the suffix of the last `n` elements. -/
def lastN (l : List α) (n : Nat) : List α :=
  l.drop (l.length - n)

/-- `OpenAIService._prepare_medical_messages`.  The system-prompt text built
by `_build_medical_system_prompt` is an opaque string parameter (no claim
depends on its contents); `max_history` is `settings.MAX_CONVERSATION_HISTORY`. -/
def prepare_medical_messages (system_prompt user_message : String)
    (conversation_history : List Msg) (max_history : Nat) : List Msg :=
  ⟨"system", system_prompt⟩ ::
    ((lastN conversation_history max_history).filter
      (fun m => m.role == "user" || m.role == "assistant")
    ++ [⟨"user", user_message⟩])

/-- `OpenAIService._trim_conversation`.  The two `match` fallbacks for empty
lists are unreachable at the call site (Python would raise `IndexError`):
the message list always starts with the system message. -/
def trim_conversation (messages : List Msg) : List Msg :=
  match messages with
  | [] => []
  | system_msg :: _ =>
    let recent_messages := messages.drop (messages.length - 5)
    match recent_messages with
    | [] => [system_msg]
    | r :: rs =>
      if r.role != "system" then system_msg :: r :: rs
      else system_msg :: rs

/-- `TokenCounter.count_messages_tokens`: per-message content tokens plus 4
formatting tokens each, plus 2 for the conversation. -/
def count_messages_tokens (countTokens : String → Nat) (messages : List Msg) : Nat :=
  (messages.foldl (fun total m => total + countTokens m.content + 4) 0) + 2

/-- The `RateLimiter` instance state: recorded request timestamps and the
configured `settings.OPENAI_RATE_LIMIT_RPM` budget. -/
structure LimiterState where
  requests : List Int
  max_requests : Nat
deriving DecidableEq, Repr

/-- `RateLimiter.can_make_request`: drops timestamps older than the 60-second
window (mutating the stored list) and compares against the budget. -/
def can_make_request (st : LimiterState) (now : Int) : Bool × LimiterState :=
  let reqs := st.requests.filter (fun r => now - r < 60)
  (reqs.length < st.max_requests, { st with requests := reqs })

/-- `RateLimiter.record_request`. -/
def record_request (st : LimiterState) (now : Int) : LimiterState :=
  { st with requests := st.requests ++ [now] }

/-- `OpenAIService.get_medical_response`.  Returns the response dict, the
rate-limiter state after the call, and whether the provider was contacted
(`_make_chat_completion` reached).  The body of the Python `try` block is the
`core` value of type `Except`; the surrounding `except Exception` clause is
the final `match`, which converts any raised error into
`_get_fallback_response(user_message, str(e))`.  The float threshold
`token_count > settings.OPENAI_MAX_TOKENS * 0.8` is embedded as the exact
comparison `10 * token_count > 8 * max_tokens`. -/
def get_medical_response
    (jsonParse : String → Option (List (String × String)))
    (countTokens : String → Nat)
    (client_available : Bool)
    (provider : Except String String)
    (max_tokens max_history : Nat)
    (system_prompt user_message : String)
    (conversation_history : List Msg)
    (st : LimiterState) (now : Int) :
    MedicalResponse × LimiterState × Bool :=
  let core : Except (String × LimiterState × Bool) (MedicalResponse × LimiterState × Bool) :=
    if !client_available then
      .ok (get_fallback_response user_message, st, false)
    else
      let checked := can_make_request st now
      if !checked.1 then
        .error ("Rate limit exceeded. Please try again later.", checked.2, false)
      else
        let messages := prepare_medical_messages system_prompt user_message
          conversation_history max_history
        let token_count := count_messages_tokens countTokens messages
        let _messages := if 10 * token_count > 8 * max_tokens then
          trim_conversation messages else messages
        match provider with
        | .error e => .error (e, checked.2, true)
        | .ok content =>
          let parsed := parse_medical_response (jsonParse content) content
          .ok (parsed, record_request checked.2 now, true)
  match core with
  | .ok r => r
  | .error (_, stErr, contacted) => (get_fallback_response user_message, stErr, contacted)

/-! ## Simple gateway — `src/chat/simple_openai_service.py`

`SimpleOpenAIService` (the service actually wired into `ChatService`). -/

/-- `SimpleOpenAIService._get_fallback_response` (lines 234–255). -/
def simple_get_fallback_response (user_message : String) : MedicalResponse :=
  let user_lower := pyLower user_message
  let response :=
    if anyKeyword user_lower ["hello", "hi", "hey"] then
      "Hello! I'm your AI assistant. How can I help you today?"
    else if anyKeyword user_lower ["help", "assist"] then
      "I'm here to help! Please let me know what you need assistance with."
    else if anyKeyword user_lower ["how are you", "how do you do"] then
      "I'm doing well, thank you for asking! How can I assist you today?"
    else if anyKeyword user_lower ["thank", "thanks"] then
      "You're welcome! Is there anything else I can help you with?"
    else
      "I understand you're asking about that. Could you please provide more details so I can better assist you?"
  { response := response, gesture := "professional"
    mood := "professional", urgency := "low" }

/-- `SimpleOpenAIService.get_chat_response` (lines 64–129), with the provider
call outcome as a parameter; any provider error falls back. -/
def simple_get_chat_response (client_available : Bool)
    (provider : Except String String) (user_message : String) : MedicalResponse :=
  if !client_available then simple_get_fallback_response user_message
  else
    match provider with
    | .ok response_text =>
      { response := response_text, gesture := "professional"
        mood := "professional", urgency := "low" }
    | .error _ => simple_get_fallback_response user_message

/-! ## Streaming relay — `src/chat/simple_openai_service.py` lines 131–232
and `src/chat/consumers.py` lines 50–134. -/

/-- One element of the provider's token stream: `chunk.choices[0].delta.content`
and `chunk.choices[0].finish_reason`. -/
structure StreamChunk where
  content : Option String
  finish_reason : Option String
deriving DecidableEq, Repr

/-- The `async for` loop of `get_streaming_chat_response`: accumulates
`full_response` and records each `callback(chunk_text, is_final=False)`
invocation, in order.  A chunk's content is relayed before the
`finish_reason` check; the loop breaks at the first chunk with a
`finish_reason`. -/
def stream_loop : List StreamChunk → String × List (String × Bool)
  | [] => ("", [])
  | c :: rest =>
    let here : String × List (String × Bool) :=
      match c.content with
      | some t => (t, [(t, false)])
      | none => ("", [])
    if c.finish_reason.isSome then here
    else
      let r := stream_loop rest
      (here.1 ++ r.1, here.2 ++ r.2)

/-- `SimpleOpenAIService.get_streaming_chat_response` on the streaming path
(async client available): the returned dict and the full ordered list of
`callback(text, is_final)` invocations, ending with `callback("", True)`. -/
def get_streaming_chat_response (chunks : List StreamChunk) :
    MedicalResponse × List (String × Bool) :=
  let r := stream_loop chunks
  ({ response := r.1, gesture := "professional"
     mood := "professional", urgency := "low" },
   r.2 ++ [("", true)])

/-- Outbound protocol events sent by `ChatConsumer` (the constant
`sender: 'ai'` field is omitted). -/
inductive OutEvent where
  | stream_start
  | stream_chunk (chunk : String)
  | stream_tts (text : String)
  | stream_end (complete_message gesture mood : String)
  | message (text gesture mood : String)
deriving DecidableEq, Repr

/-- Per-request handler state of `ChatConsumer.handle_chat_message`: the
accumulated response, the pending TTS word buffer, the outbound events sent
so far, and the `Conversation` rows written by the handler. -/
structure StreamState where
  full_response : String
  current_word_buffer : String
  events : List OutEvent
  persisted : List Msg
deriving DecidableEq, Repr

/-- The `stream_callback` closure of `ChatConsumer.handle_chat_message`
(lines 66–112).  `if chunk_text:` is the Python truthiness test, i.e.
`chunk_text ≠ ""`. -/
def stream_callback (st : StreamState) (chunk_text : String) (is_final : Bool) :
    StreamState :=
  if chunk_text != "" then
    let full_response := st.full_response ++ chunk_text
    let buf := st.current_word_buffer ++ chunk_text
    let events := st.events ++ [.stream_chunk chunk_text]
    if strContains buf " " || strContains buf "." || strContains buf "," then
      let tts_text := pyTrim buf
      let events := if tts_text != "" then events ++ [.stream_tts tts_text] else events
      { st with full_response := full_response, current_word_buffer := "", events := events }
    else
      { st with full_response := full_response, current_word_buffer := buf, events := events }
  else if is_final then
    let events :=
      if pyTrim st.current_word_buffer != "" then
        st.events ++ [.stream_tts (pyTrim st.current_word_buffer)]
      else st.events
    { st with events :=
        events ++ [.stream_end st.full_response "professional" "professional"] }
  else st

/-- `ChatConsumer.handle_chat_message` (lines 50–134) on the streaming path:
sends `stream_start`, then lets the streaming service drive `stream_callback`.
The handler performs no database write, so `persisted` stays `[]`.  The
`user_message` goes into the provider prompt only, which the embedding
represents by the provider's `chunks`. -/
def handle_chat_message (chunks : List StreamChunk) (user_message : String) :
    StreamState :=
  let _ := user_message
  let s0 : StreamState :=
    { full_response := "", current_word_buffer := ""
      events := [.stream_start], persisted := [] }
  let cbs := (get_streaming_chat_response chunks).2
  cbs.foldl (fun s tb => stream_callback s tb.1 tb.2) s0

/-- The outcome of `json.loads(text_data)` on an inbound frame. -/
inductive ParseOutcome where
  | ok (data : List (String × String))
  | jsonError (msg : String)
deriving DecidableEq, Repr

/-- `ChatConsumer.receive` (lines 34–48).  There is no `try/except` around
`json.loads`, so a JSON error propagates out of `receive` (`.error`).  An
unknown `type` is only logged: no outbound event, no exception.  For
`chat_message`, `data['message']` raises `KeyError` when absent (it is read
before the handler's `try` block). -/
def receive (parsed : ParseOutcome) (chunks : List StreamChunk) :
    Except String (List OutEvent) :=
  match parsed with
  | .jsonError e => .error e
  | .ok data =>
    let message_type := dictGet? data "type"
    if message_type == some "chat_message" then
      match dictGet? data "message" with
      | none => .error "KeyError: message"
      | some m => .ok (handle_chat_message chunks m).events
    else if message_type == some "voice_input" then
      let transcription := dictGet data "transcription" ""
      if transcription != "" then .ok (handle_chat_message chunks transcription).events
      else .ok []
    else if message_type == some "gesture_trigger" then .ok []
    else .ok []

/-! ## Speech Synthesis Gateway — `src/chat/openai_service.py` lines 276–333

`OpenAIService.generate_voice_response`.  Parameters for the externals:
`pyHash` is Python's per-process `hash` on strings, `provider` gives the
audio bytes returned by the n-th TTS provider call (bytes are `List Nat`). -/

/-- Django cache state plus a count of provider calls made so far.  Each
cache entry is `(key, audio bytes, expiry time)`; `cache.set(…, timeout=3600)`
stores expiry `now + 3600` and `cache.get` only returns unexpired entries. -/
structure TTSState where
  cache : List (String × List Nat × Int)
  provider_calls : Nat
deriving DecidableEq, Repr

/-- `django.core.cache.cache.get`. -/
def cache_get (cache : List (String × List Nat × Int)) (key : String) (now : Int) :
    Option (List Nat) :=
  match cache.find? (fun e => e.1 == key) with
  | some e => if now < e.2.2 then some e.2.1 else none
  | none => none

/-- `django.core.cache.cache.set(key, audio, timeout=3600)`; newest entry
shadows any older one with the same key. -/
def cache_set (cache : List (String × List Nat × Int)) (key : String)
    (audio : List Nat) (now : Int) : List (String × List Nat × Int) :=
  (key, audio, now + 3600) :: cache

/-- The cache key `f"tts_{hash(text_content)}_{voice}"`. -/
def tts_cache_key (pyHash : String → Int) (text voice : String) : String :=
  "tts_" ++ toString (pyHash text) ++ "_" ++ voice

/-- `OpenAIService.generate_voice_response` on a string input (the
dict-extraction branch is not exercised by any claim).  `voice?` is the
optional `voice` argument; `voice or settings.OPENAI_TTS_VOICE` treats both
`None` and `""` as falsy.  `if cached_audio:` likewise treats a missing
entry and empty bytes as falsy.  Errors are re-raised (`raise`), hence the
`Except` result. -/
def generate_voice_response (pyHash : String → Int) (provider : Nat → List Nat)
    (client_available tts_enabled : Bool) (default_voice : String)
    (st : TTSState) (now : Int) (text : String) (voice? : Option String) :
    Except String (List Nat × TTSState) :=
  if !client_available then .error "OpenAI client not initialized"
  else if !tts_enabled then .error "Text-to-speech is disabled"
  else if pyTrim text == "" then .error "Empty text provided for TTS"
  else
    let voice :=
      match voice? with
      | some v => if v != "" then v else default_voice
      | none => default_voice
    let cache_key := tts_cache_key pyHash text voice
    let cached_audio := (cache_get st.cache cache_key now).getD []
    if cached_audio != [] then .ok (cached_audio, st)
    else
      let audio_data := provider st.provider_calls
      .ok (audio_data,
        { cache := cache_set st.cache cache_key audio_data now
          provider_calls := st.provider_calls + 1 })

/-! ## Server-side TTS service and HTTP surface — `src/chat/services.py`
lines 257–266 and `src/chat/api_views.py`. -/

/-- `TTSService.text_to_speech`: returns `None` immediately so the browser
does TTS (the stated zero-latency design; server TTS "can be added later"). -/
def text_to_speech (text : String) (session_id voice : Option String) :
    Option String :=
  let _ := (text, session_id, voice)
  none

/-- Shape of the `JsonResponse` bodies of the HTTP endpoints. -/
structure ApiResult where
  success : Bool
  message : Option String
  audio_url : Option String
  error : Option String
deriving DecidableEq, Repr

/-- `tts_api` (api_views.py lines 117–163).  `body` is the `json.loads`
outcome on the request body; a JSON error is swallowed by the broad
`except Exception` into the `"TTS service error"` response. -/
def tts_api (body : Option (List (String × String))) : ApiResult :=
  match body with
  | none =>
    { success := false, message := none, audio_url := none
      error := some "TTS service error" }
  | some data =>
    let text := pyTrim (dictGet data "text" "")
    let session_id := dictGet data "session_id" "default"
    let voice := dictGet? data "voice"
    if text == "" then
      { success := false, message := none, audio_url := none
        error := some "Text cannot be empty" }
    else
      match text_to_speech text (some session_id) voice with
      | some url =>
        { success := true, message := none, audio_url := some url, error := none }
      | none =>
        { success := false, message := none, audio_url := none
          error := some "TTS generation failed" }

/-- `ChatAPIView.post` (api_views.py lines 28–88).  `ai_response` is the
value returned by `chat_service.get_medical_response`; `audio_url` is
whatever `TTSService.text_to_speech` yields. -/
def chat_api_post (body : Option (List (String × String)))
    (ai_response : MedicalResponse) : ApiResult :=
  match body with
  | none =>
    { success := false, message := none, audio_url := none
      error := some "Invalid JSON data" }
  | some data =>
    let message := pyTrim (dictGet data "message" "")
    let session_id := dictGet data "session_id" "default"
    if message == "" then
      { success := false, message := none, audio_url := none
        error := some "Message cannot be empty" }
    else
      let ai_message := ai_response.response
      let audio_url := text_to_speech ai_message (some session_id) none
      { success := true, message := some ai_message
        audio_url := audio_url, error := none }

/-! # Helper lemmas -/

theorem mem_of_contains {l : List String} {a : String} (h : l.contains a = true) :
    a ∈ l :=
  List.mem_of_elem_eq_true h

theorem get_fallback_response_gesture_mem (m : String) :
    (get_fallback_response m).gesture ∈ valid_gestures := by
  simp only [get_fallback_response]
  repeat' split
  all_goals decide

theorem get_fallback_response_mood_mem (m : String) :
    (get_fallback_response m).mood ∈ valid_moods := by
  simp only [get_fallback_response]
  repeat' split
  all_goals decide

theorem validate_gesture_valid (g : String) :
    validate_gesture g ∈ valid_gestures ∨ validate_gesture g = "professional" := by
  unfold validate_gesture
  split
  next h => exact Or.inl (mem_of_contains h)
  next => exact Or.inr rfl

theorem validate_mood_valid (g : String) : validate_mood g ∈ valid_moods := by
  unfold validate_mood
  split
  next h => exact mem_of_contains h
  next => decide

theorem parse_medical_response_gesture (j : Option (List (String × String)))
    (r : String) :
    (parse_medical_response j r).gesture ∈ valid_gestures ∨
      (parse_medical_response j r).gesture = "professional" := by
  cases j with
  | none => exact Or.inr rfl
  | some parsed => exact validate_gesture_valid _

theorem parse_medical_response_mood (j : Option (List (String × String)))
    (r : String) : (parse_medical_response j r).mood ∈ valid_moods := by
  cases j with
  | none => exact (by decide : ("professional" : String) ∈ valid_moods)
  | some parsed => exact validate_mood_valid _

/-- Every value `get_medical_response` can return is either the keyword
fallback or a validated parse of some provider content. -/
theorem get_medical_response_cases (jsonParse : String → Option (List (String × String)))
    (countTokens : String → Nat) (client_available : Bool)
    (provider : Except String String) (max_tokens max_history : Nat)
    (system_prompt user_message : String) (conversation_history : List Msg)
    (st : LimiterState) (now : Int) :
    (get_medical_response jsonParse countTokens client_available provider
        max_tokens max_history system_prompt user_message conversation_history
        st now).1 = get_fallback_response user_message ∨
      ∃ content, (get_medical_response jsonParse countTokens client_available
        provider max_tokens max_history system_prompt user_message
        conversation_history st now).1 =
          parse_medical_response (jsonParse content) content := by
  unfold get_medical_response
  cases client_available with
  | false => exact Or.inl rfl
  | true =>
    dsimp only [Bool.not_true]
    by_cases hcan : (can_make_request st now).1
    · simp only [hcan, Bool.not_true]
      cases provider with
      | error e => exact Or.inl rfl
      | ok content => exact Or.inr ⟨content, rfl⟩
    · simp only [Bool.not_eq_true] at hcan
      simp only [hcan, Bool.not_false]
      exact Or.inl rfl

/-! # Claims -/

/-- C2 (corrected): for every input and every provider output, the `gesture`
returned by `get_medical_response` is in the enumerated `valid_gestures` set
**or** is the out-of-vocabulary default `"professional"`, and the `mood` is
always in `{professional, concerned, reassuring, focused}`.  (The original
claim — gesture always in the enumerated set — fails: see the
counterexample.) -/
theorem C2_gesture_and_mood_vocabulary
    (jsonParse : String → Option (List (String × String)))
    (countTokens : String → Nat) (client_available : Bool)
    (provider : Except String String) (max_tokens max_history : Nat)
    (system_prompt user_message : String) (conversation_history : List Msg)
    (st : LimiterState) (now : Int) :
    ((get_medical_response jsonParse countTokens client_available provider
        max_tokens max_history system_prompt user_message conversation_history
        st now).1.gesture ∈ valid_gestures ∨
      (get_medical_response jsonParse countTokens client_available provider
        max_tokens max_history system_prompt user_message conversation_history
        st now).1.gesture = "professional") ∧
    (get_medical_response jsonParse countTokens client_available provider
        max_tokens max_history system_prompt user_message conversation_history
        st now).1.mood ∈ valid_moods := by
  rcases get_medical_response_cases jsonParse countTokens client_available
    provider max_tokens max_history system_prompt user_message
    conversation_history st now with h | ⟨content, h⟩
  · rw [h]
    exact ⟨Or.inl (get_fallback_response_gesture_mem _),
      get_fallback_response_mood_mem _⟩
  · rw [h]
    exact ⟨parse_medical_response_gesture _ _, parse_medical_response_mood _ _⟩

/-- C2 counterexample: when the provider returns a JSON object whose gesture
is the out-of-vocabulary name `"dance"`, the gateway returns
`gesture = "professional"`, which is **not** a member of the enumerated
valid-gesture set — refuting the claim as stated. -/
theorem C2_counterexample_oov_gesture :
    (get_medical_response
        (fun _ => some [("response", "ok"), ("gesture", "dance"),
          ("mood", "professional"), ("urgency", "low")])
        (fun _ => 0) true (.ok "provider-content") 1000 10
        "system prompt" "I feel dizzy" [] ⟨[], 60⟩ 0).1.gesture =
      "professional" ∧
    (get_medical_response
        (fun _ => some [("response", "ok"), ("gesture", "dance"),
          ("mood", "professional"), ("urgency", "low")])
        (fun _ => 0) true (.ok "provider-content") 1000 10
        "system prompt" "I feel dizzy" [] ⟨[], 60⟩ 0).1.gesture ∉
      valid_gestures := by
  decide

/-- C3 (code bug): on the input `"I have a headache"` the keyword fallback
returns the *pain* response with `gesture = "examine"` — not the
headache-relief response with `gesture = "reassure"` the specification
promises — because `'ache'` is a substring of `'headache'` and the
pain-keyword branch is tested first. -/
theorem C3_headache_input_takes_pain_branch :
    (get_fallback_response "I have a headache").gesture = "examine" ∧
    (get_fallback_response "I have a headache").gesture ≠ "reassure" ∧
    (get_fallback_response "I have a headache").response =
      "I understand you're experiencing pain. Can you describe the location and severity? For immediate severe pain, please seek medical attention." := by
  decide

/-- C4 (corrected, amended half): `ChatConsumer.handle_chat_message` performs
no database write at all — the set of `Conversation` rows it persists is
empty for every inbound message and every provider stream. -/
theorem C4_handler_persists_nothing (chunks : List StreamChunk)
    (user_message : String) :
    (handle_chat_message chunks user_message).persisted = [] := by
  have step : ∀ (l : List (String × Bool)) (s : StreamState),
      (l.foldl (fun s tb => stream_callback s tb.1 tb.2) s).persisted =
        s.persisted := by
    intro l
    induction l with
    | nil => intro s; rfl
    | cons tb rest ih =>
      intro s
      rw [List.foldl_cons, ih]
      unfold stream_callback
      dsimp only
      repeat' split
      all_goals rfl
  exact step _ _

/-- C4 counterexample: processing the chat message `"hi"` (with a concrete
provider stream) persists no `user`-role `Conversation` record, refuting the
claim that the inbound text is stored as a user turn. -/
theorem C4_counterexample_no_user_turn :
    ¬ ∃ m ∈ (handle_chat_message
        [⟨some "Hello there", none⟩, ⟨none, some "stop"⟩] "hi").persisted,
      m.role = "user" := by
  decide

/-- C10: the server-side TTS operation returns `None` for every input, so the
`audio_url` of every HTTP `/chat` response is null and every `/chat/tts`
request answers `success = false`. -/
theorem C10_server_tts_always_null :
    (∀ text session_id voice, text_to_speech text session_id voice = none) ∧
    (∀ body, (tts_api body).success = false) ∧
    (∀ body ai_response, (chat_api_post body ai_response).audio_url = none) := by
  refine ⟨fun _ _ _ => rfl, fun body => ?_, fun body ai_response => ?_⟩
  · cases body with
    | none => rfl
    | some data =>
      simp only [tts_api, text_to_speech]
      split <;> rfl
  · cases body with
    | none => rfl
    | some data =>
      simp only [chat_api_post, text_to_speech]
      split <;> rfl

/-- C9: the input `"Hello! I understand your concern, this looks serious."`
yields a gesture list containing a `wave`, an `empathy` and a `concern`
entry, with the timing offsets in ascending (non-decreasing) order. -/
theorem C9_gesture_mapping_scenario :
    (∃ g ∈ analyze_text_for_gestures
        "Hello! I understand your concern, this looks serious.",
      g.name = "wave") ∧
    (∃ g ∈ analyze_text_for_gestures
        "Hello! I understand your concern, this looks serious.",
      g.name = "empathy") ∧
    (∃ g ∈ analyze_text_for_gestures
        "Hello! I understand your concern, this looks serious.",
      g.name = "concern") ∧
    List.Sorted (· ≤ ·)
      ((analyze_text_for_gestures
        "Hello! I understand your concern, this looks serious.").map
        GestureEntry.timing) := by
  decide

/-- C5 counterexample: a frame whose body is not valid JSON makes `receive`
raise — the `json.loads` exception propagates out because nothing catches it,
refuting the claim that malformed frames are silently dropped without
`receive` raising. -/
theorem C5_counterexample_bad_json_raises :
    receive (.jsonError "Expecting value: line 1 column 1 (char 0)") [] =
      .error "Expecting value: line 1 column 1 (char 0)" := rfl

/-- C5 (corrected): a valid-JSON frame with an unknown `type` discriminator
is logged and silently dropped — no outbound event is emitted and `receive`
returns normally; but a frame whose body is not valid JSON raises out of
`receive` (see the counterexample). -/
theorem C5_unknown_type_silently_dropped (data : List (String × String))
    (chunks : List StreamChunk)
    (h1 : dictGet? data "type" ≠ some "chat_message")
    (h2 : dictGet? data "type" ≠ some "voice_input")
    (h3 : dictGet? data "type" ≠ some "gesture_trigger") :
    receive (.ok data) chunks = .ok [] := by
  unfold receive
  simp [h1, h2, h3]

/-- C5 witness: the unknown type `"bogus"` is dropped with no event. -/
theorem C5_unknown_type_witness :
    receive (.ok [("type", "bogus")]) [] = .ok [] :=
  C5_unknown_type_silently_dropped [("type", "bogus")] []
    (by decide) (by decide) (by decide)

/-- C6: when the budget-many requests are already recorded inside the sliding
60-second window, the next `get_medical_response` call is answered by the
keyword fallback, the provider is not contacted, and no exception escapes
(the call returns normally). -/
theorem C6_rate_limited_call_uses_fallback
    (jsonParse : String → Option (List (String × String)))
    (countTokens : String → Nat) (provider : Except String String)
    (max_tokens max_history : Nat) (system_prompt user_message : String)
    (conversation_history : List Msg) (st : LimiterState) (now : Int)
    (h : st.max_requests ≤ (st.requests.filter (fun r => now - r < 60)).length) :
    get_medical_response jsonParse countTokens true provider max_tokens
        max_history system_prompt user_message conversation_history st now =
      (get_fallback_response user_message,
        ⟨st.requests.filter (fun r => now - r < 60), st.max_requests⟩, false) := by
  have hcan : (can_make_request st now).1 = false := by
    unfold can_make_request
    exact decide_eq_false (not_lt.mpr h)
  unfold get_medical_response
  simp only [Bool.not_true, hcan, Bool.not_false, if_neg, if_true, ite_true, ite_false]
  rfl

/-- C6 witness: with a budget of 2 and two requests 20 and 50 seconds old,
the third call is served by the fallback without a provider call. -/
theorem C6_rate_limit_witness :
    (⟨[0, 30], 2⟩ : LimiterState).max_requests ≤
      ((⟨[0, 30], 2⟩ : LimiterState).requests.filter
        (fun r => (50 : Int) - r < 60)).length ∧
    get_medical_response (fun _ => none) (fun _ => 0) true
        (.ok "provider-content") 1000 10 "system prompt" "I have a fever" []
        ⟨[0, 30], 2⟩ 50 =
      (get_fallback_response "I have a fever", ⟨[0, 30], 2⟩, false) :=
  ⟨by decide,
    C6_rate_limited_call_uses_fallback (fun _ => none) (fun _ => 0)
      (.ok "provider-content") 1000 10 "system prompt" "I have a fever" []
      ⟨[0, 30], 2⟩ 50 (by decide)⟩

/-- C7: trimming a message list whose only system message is its head keeps
the system message first, returns at most 6 messages, and — whenever there
are at least 5 later messages — the remainder is exactly the most recent 5
messages.  (Shorter lists are returned unchanged, i.e. system message plus
all, hence "the most recent", turns.) -/
theorem C7_trim_to_system_plus_recent_five (messages : List Msg) (sys : Msg)
    (rest : List Msg) (hm : messages = sys :: rest)
    (hsys : sys.role = "system")
    (hrest : ∀ m ∈ rest, m.role ≠ "system") :
    (trim_conversation messages).head? = some sys ∧
    (trim_conversation messages).length ≤ 6 ∧
    (5 ≤ rest.length →
      trim_conversation messages = sys :: messages.drop (messages.length - 5)) ∧
    (rest.length < 5 → trim_conversation messages = messages) := by
  subst hm
  by_cases hlen : rest.length < 5
  · -- the whole list already fits: the 5-suffix still starts with `sys`
    have h0 : (sys :: rest).length - 5 = 0 := by
      simp only [List.length_cons]; omega
    have htrim : trim_conversation (sys :: rest) = sys :: rest := by
      unfold trim_conversation
      dsimp only
      rw [h0, List.drop_zero]
      simp [hsys]
    refine ⟨by rw [htrim]; rfl, by rw [htrim]; simp; omega, fun habs => absurd habs (by omega), fun _ => htrim⟩
  · -- at least 6 messages: the recent 5 contain no system message
    push_neg at hlen
    have hdrop : (sys :: rest).drop ((sys :: rest).length - 5) =
        rest.drop (rest.length - 5) := by
      have : (sys :: rest).length - 5 = (rest.length - 5) + 1 := by
        simp only [List.length_cons]; omega
      rw [this, List.drop_succ_cons]
    have hlen5 : (rest.drop (rest.length - 5)).length = 5 := by
      rw [List.length_drop]; omega
    obtain ⟨r, rs, hrrs⟩ : ∃ r rs, rest.drop (rest.length - 5) = r :: rs := by
      cases hd : rest.drop (rest.length - 5) with
      | nil => rw [hd] at hlen5; simp at hlen5
      | cons r rs => exact ⟨r, rs, rfl⟩
    have hrmem : r ∈ rest := by
      have : r ∈ rest.drop (rest.length - 5) := by rw [hrrs]; exact List.mem_cons_self r rs
      exact List.drop_subset _ _ this
    have hrrole : (r.role != "system") = true := by
      simpa using hrest r hrmem
    have htrim : trim_conversation (sys :: rest) =
        sys :: rest.drop (rest.length - 5) := by
      unfold trim_conversation
      dsimp only
      rw [hdrop, hrrs]
      simp [hrrole, hrrs]
    refine ⟨by rw [htrim]; rfl, ?_, fun _ => by rw [htrim, hdrop], fun habs => absurd hlen (by omega)⟩
    rw [htrim]
    simp only [List.length_cons, hrrs] at *
    omega

/-- C7 witness: a 7-message list (system plus six turns) trims to the system
message followed by the most recent 5 messages. -/
theorem C7_trim_witness :
    ([⟨"system", "s"⟩, ⟨"user", "u1"⟩, ⟨"assistant", "a1"⟩, ⟨"user", "u2"⟩,
        ⟨"assistant", "a2"⟩, ⟨"user", "u3"⟩, ⟨"assistant", "a3"⟩] : List Msg) =
      ⟨"system", "s"⟩ :: [⟨"user", "u1"⟩, ⟨"assistant", "a1"⟩, ⟨"user", "u2"⟩,
        ⟨"assistant", "a2"⟩, ⟨"user", "u3"⟩, ⟨"assistant", "a3"⟩] ∧
    (trim_conversation [⟨"system", "s"⟩, ⟨"user", "u1"⟩, ⟨"assistant", "a1"⟩,
        ⟨"user", "u2"⟩, ⟨"assistant", "a2"⟩, ⟨"user", "u3"⟩,
        ⟨"assistant", "a3"⟩]).head? = some ⟨"system", "s"⟩ :=
  ⟨rfl,
    (C7_trim_to_system_plus_recent_five _ ⟨"system", "s"⟩
      [⟨"user", "u1"⟩, ⟨"assistant", "a1"⟩, ⟨"user", "u2"⟩, ⟨"assistant", "a2"⟩,
        ⟨"user", "u3"⟩, ⟨"assistant", "a3"⟩] rfl rfl (by decide)).1⟩

/-- Projection selecting the fragment carried by a `stream_chunk` event. -/
def stream_chunk_of : OutEvent → Option String
  | .stream_chunk c => some c
  | _ => none

theorem concatList_filter_ne_empty (fs : List String) :
    concatList (fs.filter (fun t => t != "")) = concatList fs := by
  induction fs with
  | nil => rfl
  | cons t rest ih =>
    by_cases ht : t = ""
    · subst ht
      simpa [String.empty_append] using ih
    · have ht' : (t != "") = true := by simpa using ht
      simp [ht', ih]

/-- The streaming loop relays exactly the non-`None` chunk contents, in
order: the callback trace is those fragments each with `is_final = False`,
and the accumulated response is their concatenation. -/
theorem stream_loop_spec (chunks : List StreamChunk) :
    ∃ fs, (stream_loop chunks).2 = fs.map (fun t => (t, false)) ∧
      (stream_loop chunks).1 = concatList fs := by
  induction chunks with
  | nil => exact ⟨[], rfl, rfl⟩
  | cons c rest ih =>
    obtain ⟨fs, h2, h1⟩ := ih
    obtain ⟨content, finish⟩ := c
    cases content with
    | none =>
      cases hf : finish.isSome with
      | true =>
        refine ⟨[], ?_, ?_⟩ <;> simp [stream_loop, hf]
      | false =>
        refine ⟨fs, ?_, ?_⟩ <;>
          simp [stream_loop, hf, h1, h2, String.empty_append]
    | some t =>
      cases hf : finish.isSome with
      | true =>
        refine ⟨[t], ?_, ?_⟩ <;> simp [stream_loop, hf, String.append_empty]
      | false =>
        refine ⟨t :: fs, ?_, ?_⟩ <;> simp [stream_loop, hf, h1, h2]

/-- Effect of one non-final callback with a non-empty fragment: the fragment
is appended to the accumulated response and one `stream_chunk` event carrying
it is emitted (possibly followed by a `stream_tts`, which carries no chunk). -/
theorem stream_callback_chunk_spec (s : StreamState) (t : String) (ht : t ≠ "") :
    (stream_callback s t false).full_response = s.full_response ++ t ∧
    (stream_callback s t false).events.filterMap stream_chunk_of =
      s.events.filterMap stream_chunk_of ++ [t] := by
  have ht' : (t != "") = true := by simpa using ht
  unfold stream_callback
  rw [if_pos ht']
  dsimp only
  repeat' split
  all_goals simp [List.filterMap_append, stream_chunk_of]

/-- Effect of the final `callback("", is_final=True)`: no further
`stream_chunk` is emitted and the last event is the `stream_end` carrying the
accumulated response with the fixed default gesture and mood. -/
theorem stream_callback_final_spec (s : StreamState) :
    (stream_callback s "" true).events.filterMap stream_chunk_of =
      s.events.filterMap stream_chunk_of ∧
    (stream_callback s "" true).events.getLast? =
      some (.stream_end s.full_response "professional" "professional") := by
  have hred : stream_callback s "" true =
      { s with events :=
          (if pyTrim s.current_word_buffer != "" then
            s.events ++ [.stream_tts (pyTrim s.current_word_buffer)]
          else s.events) ++
          [.stream_end s.full_response "professional" "professional"] } := rfl
  rw [hred]
  constructor
  · dsimp only
    split <;> simp [List.filterMap_append, stream_chunk_of]
  · dsimp only
    exact List.getLast?_concat _

/-- Folding the non-final callbacks over the handler state appends the
fragment concatenation to `full_response` and emits exactly the non-empty
fragments as `stream_chunk` events. -/
theorem fold_callbacks_spec (fs : List String) (s : StreamState) :
    ((fs.map (fun t => (t, false))).foldl
        (fun s tb => stream_callback s tb.1 tb.2) s).full_response =
      s.full_response ++ concatList fs ∧
    ((fs.map (fun t => (t, false))).foldl
        (fun s tb => stream_callback s tb.1 tb.2) s).events.filterMap
        stream_chunk_of =
      s.events.filterMap stream_chunk_of ++ fs.filter (fun t => t != "") := by
  induction fs generalizing s with
  | nil => exact ⟨(String.append_empty _).symm, by simp⟩
  | cons t fsrest ih =>
    dsimp only [List.map_cons, List.foldl_cons]
    by_cases ht : t = ""
    · subst ht
      have hcb : stream_callback s "" false = s := rfl
      rw [hcb]
      obtain ⟨ih1, ih2⟩ := ih s
      refine ⟨?_, ?_⟩
      · rw [ih1, concatList_cons, String.empty_append]
      · rw [ih2]; simp
    · obtain ⟨hc1, hc2⟩ := stream_callback_chunk_spec s t ht
      obtain ⟨ih1, ih2⟩ := ih (stream_callback s t false)
      have ht' : (t != "") = true := by simpa using ht
      refine ⟨?_, ?_⟩
      · rw [ih1, hc1, concatList_cons, String.append_assoc]
      · rw [ih2, hc2]
        simp [ht']

/-- Composition of the handler's callback sequence: the whole run emits the
non-empty fragments as `stream_chunk` events and ends with a `stream_end`
carrying the concatenation of all fragments. -/
theorem run_callbacks_spec (fs : List String) (s0 : StreamState) :
    (stream_callback ((fs.map (fun t => (t, false))).foldl
        (fun s tb => stream_callback s tb.1 tb.2) s0) "" true).events.filterMap
      stream_chunk_of =
      s0.events.filterMap stream_chunk_of ++ fs.filter (fun t => t != "") ∧
    (stream_callback ((fs.map (fun t => (t, false))).foldl
        (fun s tb => stream_callback s tb.1 tb.2) s0) "" true).events.getLast? =
      some (.stream_end (s0.full_response ++ concatList fs)
        "professional" "professional") := by
  obtain ⟨hA1, hA2⟩ := fold_callbacks_spec fs s0
  obtain ⟨hF1, hF2⟩ := stream_callback_final_spec
    ((fs.map (fun t => (t, false))).foldl
      (fun s tb => stream_callback s tb.1 tb.2) s0)
  exact ⟨by rw [hF1, hA2], by rw [hF2, hA1]⟩

/-- C1: for every provider stream, the streaming relay is lossless — the
callback receives every fragment with `is_final = False` followed by one
final `("", True)` call; the service's returned response text is the
concatenation of the fragments; the concatenation of all `stream_chunk`
events the consumer emits equals that same text; and the terminal event is
the `stream_end` carrying exactly that concatenation as `complete_message`. -/
theorem C1_streaming_concatenation (chunks : List StreamChunk)
    (user_message : String) :
    ∃ fragments,
      (get_streaming_chat_response chunks).2 =
        fragments.map (fun t => (t, false)) ++ [("", true)] ∧
      (get_streaming_chat_response chunks).1.response = concatList fragments ∧
      concatList ((handle_chat_message chunks user_message).events.filterMap
        stream_chunk_of) = concatList fragments ∧
      (handle_chat_message chunks user_message).events.getLast? =
        some (.stream_end (concatList ((handle_chat_message chunks
            user_message).events.filterMap stream_chunk_of))
          "professional" "professional") := by
  obtain ⟨fs, h2, h1⟩ := stream_loop_spec chunks
  have hcbs : (get_streaming_chat_response chunks).2 =
      fs.map (fun t => (t, false)) ++ [("", true)] := by
    show (stream_loop chunks).2 ++ [("", true)] = _
    rw [h2]
  have hrun : handle_chat_message chunks user_message =
      stream_callback ((fs.map (fun t => (t, false))).foldl
        (fun s tb => stream_callback s tb.1 tb.2)
        ⟨"", "", [.stream_start], []⟩) "" true := by
    unfold handle_chat_message
    rw [hcbs, List.foldl_append]
    rfl
  obtain ⟨hr1, hr2⟩ := run_callbacks_spec fs ⟨"", "", [.stream_start], []⟩
  have hchunks : (handle_chat_message chunks user_message).events.filterMap
      stream_chunk_of = fs.filter (fun t => t != "") := by
    rw [hrun, hr1]
    simp [stream_chunk_of]
  refine ⟨fs, hcbs, h1, ?_, ?_⟩
  · rw [hchunks, concatList_filter_ne_empty]
  · rw [hchunks, concatList_filter_ne_empty, hrun, hr2]
    simp [String.empty_append]

theorem string_append_left_cancel {a b c : String} (h : a ++ b = a ++ c) :
    b = c := by
  have hd : a.data ++ b.data = a.data ++ c.data := by
    have := congrArg String.data h
    simpa [String.data_append] using this
  have : b.data = c.data := List.append_cancel_left hd
  cases b; cases c; exact congrArg String.mk this

/-- Distinct voices give distinct cache keys for the same text. -/
theorem tts_cache_key_voice_inj (pyHash : String → Int) (text : String)
    {v1 v2 : String} (h : v1 ≠ v2) :
    tts_cache_key pyHash text v1 ≠ tts_cache_key pyHash text v2 := by
  intro he
  exact h (string_append_left_cancel he)

/-- A freshly stored cache entry is readable under its key until expiry. -/
theorem cache_get_set_self (cache : List (String × List Nat × Int))
    (key : String) (audio : List Nat) (now t : Int) (h : t < now + 3600) :
    cache_get (cache_set cache key audio now) key t = some audio := by
  unfold cache_get cache_set
  simp [h]

/-- Storing under one key does not affect lookups under another key. -/
theorem cache_get_set_other (cache : List (String × List Nat × Int))
    (key key' : String) (audio : List Nat) (now t : Int) (h : key' ≠ key) :
    cache_get (cache_set cache key audio now) key' t = cache_get cache key' t := by
  unfold cache_get cache_set
  simp [List.find?_cons, beq_eq_false_iff_ne.mpr (fun he => h he.symm)]

/-- C8: starting from a state with no entry for either key, a first
`generate_voice_response` call performs one provider call and stores the
audio; a second call with the same `(text, voice)` within the 3600-second
TTL returns byte-identical audio from the cache with no further provider
call; and a call with a different voice for the same text misses the cache
and performs a new provider call. -/
theorem C8_tts_cache_idempotence
    (pyHash : String → Int) (provider : Nat → List Nat)
    (default_voice : String) (st0 : TTSState) (t1 t2 : Int)
    (text v1 v2 : String)
    (htext : pyTrim text ≠ "")
    (hv1 : v1 ≠ "") (hv2 : v2 ≠ "") (hvne : v1 ≠ v2)
    (hfresh1 : cache_get st0.cache (tts_cache_key pyHash text v1) t1 = none)
    (hfresh2 : cache_get st0.cache (tts_cache_key pyHash text v2) t2 = none)
    (haudio : provider st0.provider_calls ≠ [])
    (hwin : t1 ≤ t2) (httl : t2 < t1 + 3600) :
    ∃ audio st1,
      generate_voice_response pyHash provider true true default_voice st0 t1
        text (some v1) = .ok (audio, st1) ∧
      st1.provider_calls = st0.provider_calls + 1 ∧
      generate_voice_response pyHash provider true true default_voice st1 t2
        text (some v1) = .ok (audio, st1) ∧
      ∃ audio2 st2,
        generate_voice_response pyHash provider true true default_voice st1 t2
          text (some v2) = .ok (audio2, st2) ∧
        st2.provider_calls = st0.provider_calls + 2 := by
  have htext' : (pyTrim text == "") = false := beq_eq_false_iff_ne.mpr htext
  have hv1' : (v1 != "") = true := by simpa using hv1
  have hv2' : (v2 != "") = true := by simpa using hv2
  refine ⟨provider st0.provider_calls,
    ⟨cache_set st0.cache (tts_cache_key pyHash text v1)
      (provider st0.provider_calls) t1, st0.provider_calls + 1⟩, ?_, rfl, ?_, ?_⟩
  · -- first call: fresh key, provider contacted, result cached
    unfold generate_voice_response
    simp only [Bool.not_true, Bool.false_eq_true, if_false, htext', hv1', if_true,
      hfresh1, Option.getD_none, bne_self_eq_false, ite_false, ite_true]
  · -- second call with the same voice: served from the cache
    unfold generate_voice_response
    have hhit : cache_get (cache_set st0.cache (tts_cache_key pyHash text v1)
        (provider st0.provider_calls) t1) (tts_cache_key pyHash text v1) t2 =
        some (provider st0.provider_calls) :=
      cache_get_set_self _ _ _ _ _ httl
    simp only [Bool.not_true, Bool.false_eq_true, if_false, htext', hv1', if_true,
      hhit, Option.getD_some]
    rw [if_pos (by simpa using haudio)]
  · -- changed voice: distinct key, cache miss, new provider call
    refine ⟨provider (st0.provider_calls + 1),
      ⟨cache_set (cache_set st0.cache (tts_cache_key pyHash text v1)
          (provider st0.provider_calls) t1)
        (tts_cache_key pyHash text v2) (provider (st0.provider_calls + 1)) t2,
        st0.provider_calls + 1 + 1⟩, ?_, rfl⟩
    unfold generate_voice_response
    have hmiss : cache_get (cache_set st0.cache (tts_cache_key pyHash text v1)
        (provider st0.provider_calls) t1) (tts_cache_key pyHash text v2) t2 =
        none := by
      rw [cache_get_set_other _ _ _ _ _ _
        (tts_cache_key_voice_inj pyHash text (fun he => hvne he.symm))]
      exact hfresh2
    simp only [Bool.not_true, Bool.false_eq_true, if_false, htext', hv2', if_true,
      hmiss, Option.getD_none, bne_self_eq_false, ite_false, ite_true]

/-- C8 witness: concrete two-call run — same voice hits the cache, changed
voice misses it. -/
theorem C8_tts_cache_witness :
    pyTrim "hello doctor" ≠ "" ∧
    cache_get (⟨[], 0⟩ : TTSState).cache
      (tts_cache_key (fun _ => 7) "hello doctor" "nova") 0 = none ∧
    (∃ audio st1,
      generate_voice_response (fun _ => 7) (fun _ => [4, 2]) true true "alloy"
        ⟨[], 0⟩ 0 "hello doctor" (some "nova") = .ok (audio, st1) ∧
      st1.provider_calls = 0 + 1 ∧
      generate_voice_response (fun _ => 7) (fun _ => [4, 2]) true true "alloy"
        st1 10 "hello doctor" (some "nova") = .ok (audio, st1) ∧
      ∃ audio2 st2,
        generate_voice_response (fun _ => 7) (fun _ => [4, 2]) true true "alloy"
          st1 10 "hello doctor" (some "echo") = .ok (audio2, st2) ∧
        st2.provider_calls = 0 + 2) :=
  ⟨by decide, by decide,
    C8_tts_cache_idempotence (fun _ => 7) (fun _ => [4, 2]) "alloy" ⟨[], 0⟩
      0 10 "hello doctor" "nova" "echo" (by decide) (by decide) (by decide)
      (by decide) (by decide) (by decide) (by decide) (by decide) (by decide)⟩

end AIDoctor
